import Mathlib

/-!
Verification of the WhatsApp reply-reconciliation service.

The definitions below are a shallow embedding of the Python sources:
  src/utils/csv_handler.py   (CSVHandler: the flat-file contact store)
  src/app.py                 (the Flask app; the webhook POST handler's
                              reply normalisation, validation and saving,
                              and the batch-send endpoint)
  src/webhook.py             (the standalone webhook revision)
  src/services/db_handler.py (DatabaseHandler: the SQLite store)
Pandas dataframes loaded with dtype=str become lists of string-field
records; SQLite rows become records whose nullable columns are Option
String.  Timestamps (datetime.now().isoformat()) are passed in as an
explicit `now` argument.
-/

namespace AgentTT

/-- Python's str.lower restricted to the characters this system meets:
ASCII letters and the Latin-1 accented block (uppercase accented vowels
such as the accented I in the affirmative token map down by 0x20, as
CPython does for that block). -/
def pyLowerChar (c : Char) : Char :=
  if 0x41 ≤ c.toNat ∧ c.toNat ≤ 0x5A then Char.ofNat (c.toNat + 0x20)
  else if 0xC0 ≤ c.toNat ∧ c.toNat ≤ 0xDE ∧ c.toNat ≠ 0xD7 then Char.ofNat (c.toNat + 0x20)
  else c

/-- Python's str.upper on the same character ranges. -/
def pyUpperChar (c : Char) : Char :=
  if 0x61 ≤ c.toNat ∧ c.toNat ≤ 0x7A then Char.ofNat (c.toNat - 0x20)
  else if 0xE0 ≤ c.toNat ∧ c.toNat ≤ 0xFE ∧ c.toNat ≠ 0xF7 then Char.ofNat (c.toNat - 0x20)
  else c

/-- str.lower over a whole string. -/
def pyLower (s : String) : String := String.mk (s.data.map pyLowerChar)

/-- str.upper over a whole string. -/
def pyUpper (s : String) : String := String.mk (s.data.map pyUpperChar)

/-- str.strip: drop leading and trailing whitespace. -/
def pyStrip (s : String) : String :=
  String.mk (((s.data.dropWhile Char.isWhitespace).reverse.dropWhile Char.isWhitespace).reverse)

/-- Chained .replace removing every plus sign, space and hyphen, as both
the Python helpers and the SQL REPLACE(REPLACE(REPLACE(...))) chain do. -/
def stripPhoneChars (s : String) : String :=
  String.mk (s.data.filter (fun c => c != '+' && c != ' ' && c != '-'))

/-- CSVHandler.find_contact_by_phone's normalisation:
phone.strip().replace of plus, space and hyphen (both sides). -/
def normalizePhone (s : String) : String := stripPhoneChars (pyStrip s)

/-- In-place update of the element at one index, pandas df.at-style;
out-of-range indices leave the list unchanged. -/
def modifyAt (f : α → α) : Nat → List α → List α
  | _, [] => []
  | 0, a :: l => f a :: l
  | n + 1, a :: l => a :: modifyAt f n l

/-- One row of bd_envio.csv as CSVHandler loads it (dtype=str): the phone
key, the tracking columns load_csv self-heals, and the reply columns
update_response self-heals.  A cell that is absent in the file is the
empty string here. -/
structure Row where
  telefono_e164 : String
  nombre : String
  opt_in : String
  estado_envio_simple : String
  fecha_envio_simple : String
  message_id_simple : String
  respuesta : String
  fecha_respuesta : String
  respuesta_id : String
deriving Repr, DecidableEq, Inhabited

namespace CSVHandler

/-- CSVHandler.find_contact_by_phone: first row whose normalised phone
equals the normalised search phone. -/
def find_contact_by_phone (df : List Row) (phone : String) : Option Nat :=
  df.findIdx? (fun r => normalizePhone r.telefono_e164 == normalizePhone phone)

/-- CSVHandler.update_response: look the contact up; when absent return
failure and the untouched frame; when present overwrite respuesta and
fecha_respuesta, and respuesta_id when button_id is truthy. -/
def update_response (df : List Row) (phone : String) (response_text : String)
    (button_id : String) (now : String) : Bool × List Row × String :=
  match find_contact_by_phone df phone with
  | none => (false, df, "Contacto no encontrado")
  | some idx =>
      let df1 := modifyAt (fun r =>
        let r1 := { r with respuesta := response_text, fecha_respuesta := now }
        if button_id != "" then { r1 with respuesta_id := button_id } else r1) idx df
      (true, df1, "Respuesta registrada")

/-- The opt-in acceptance test of get_pending_contacts:
str(opt_in).strip().upper() in ('TRUE', '1', 'YES', 'SI', 'SÍ'). -/
def opt_in_accepted (s : String) : Bool :=
  ["TRUE", "1", "YES", "SI", "SÍ"].contains (pyUpper (pyStrip s))

/-- The estado normalisation of get_pending_contacts:
str(estado_envio_simple).strip().lower(). -/
def estado_norm (s : String) : String := pyLower (pyStrip s)

/-- CSVHandler.get_pending_contacts: (index, row) pairs in frame order,
kept when the opt-in column (when present) accepts the row and the
normalised estado is not sent. -/
def get_pending_contacts (has_opt_in : Bool) (df : List Row) : List (Nat × Row) :=
  df.enum.filter (fun p =>
    (!has_opt_in || opt_in_accepted p.2.opt_in) && estado_norm p.2.estado_envio_simple != "sent")

/-- CSVHandler.update_send_status: mark the row sent with its message id,
or error, and stamp fecha_envio_simple. -/
def update_send_status (df : List Row) (idx : Nat) (success : Bool)
    (result : String) (now : String) : List Row :=
  let df1 :=
    if success then
      modifyAt (fun r => { r with estado_envio_simple := "sent", message_id_simple := result }) idx df
    else
      modifyAt (fun r => { r with estado_envio_simple := "error" }) idx df
  modifyAt (fun r => { r with fecha_envio_simple := now }) idx df1

/-- The summary record of CSVHandler.get_statistics. -/
structure Stats where
  total : Nat
  sent : Nat
  errors : Nat
  pending : Int
deriving Repr, DecidableEq

/-- CSVHandler.get_statistics: whole-store counts; sent and errors by
exact match on estado_envio_simple, pending the remainder. -/
def get_statistics (df : List Row) : Stats :=
  let total := df.length
  let sent := (df.filter (fun r => r.estado_envio_simple == "sent")).length
  let errors := (df.filter (fun r => r.estado_envio_simple == "error")).length
  ⟨total, sent, errors, (total : Int) - sent - errors⟩

end CSVHandler

/-- The affirmative token list of the webhook handler in src/app.py. -/
def valid_yes : List String := ["si", "sí", "yes", "y"]

/-- The negative token list of the webhook handler in src/app.py. -/
def valid_no : List String := ["no", "n"]

/-- The handler's normalisation of an inbound body:
str(response_text).strip().lower(). -/
def normalize_reply (s : String) : String := pyLower (pyStrip s)

/-- The three classification outcomes of an inbound reply. -/
inductive Decision where
  | yes
  | no
  | invalid
deriving Repr, DecidableEq

/-- The reply classification the webhook handler computes: an absent body
never reaches the token test and acts as invalid; a present body is
normalised and matched whole against the token lists. -/
def classify (raw : Option String) : Decision :=
  match raw with
  | none => .invalid
  | some t =>
      let n := normalize_reply t
      if valid_yes.contains n then .yes
      else if valid_no.contains n then .no
      else .invalid

/-- The two acknowledgment texts the webhook handler can send: the
thank-you after a recorded reply, and the validation instructions after
an invalid one. -/
inductive AckKind where
  | thanks
  | validation
deriving Repr, DecidableEq

/-- One outbound send attempt of the webhook handler. -/
structure Outbound where
  recipient : String
  kind : AckKind
deriving Repr, DecidableEq

/-- What one inbound message leaves behind: the contact frame, whether
save_csv ran, the acknowledgment sends attempted, and the subset of them
the provider accepted. -/
structure WebhookEffect where
  store : List Row
  saved : Bool
  attempts : List Outbound
  delivered : List Outbound
deriving Repr, DecidableEq

/-- The store, save flag and send attempts of one inbound message,
following the normalisation-and-saving block of src/app.py's webhook
POST handler.  Absent or empty text, or an empty sender, does nothing.
A body whose whole normalised text is a yes/no token is standardised,
written through update_response (overwriting any prior answer the row
holds) and saved, then the thank-you is attempted; when the contact is
unknown nothing is saved or sent.  Any other body sends the validation
instructions unless the contact already holds a non-empty, non-nan
respuesta. -/
def process_core (df : List Row) (from_number : String) (response_text : Option String)
    (button_id : Option String) (context_id : String) (now : String) :
    List Row × Bool × List Outbound :=
  match response_text with
  | none => (df, false, [])
  | some txt =>
      if txt == "" || from_number == "" then (df, false, [])
      else
        let n := normalize_reply txt
        if valid_yes.contains n || valid_no.contains n then
          let standardized := if valid_yes.contains n then "Sí" else "No"
          let correlation_id :=
            match button_id with
            | some b => if b != "" then b else context_id
            | none => context_id
          let res := CSVHandler.update_response df from_number standardized correlation_id now
          if res.1 then (res.2.1, true, [⟨from_number, .thanks⟩])
          else (df, false, [])
        else
          match CSVHandler.find_contact_by_phone df from_number with
          | some idx =>
              let existente := pyStrip (df.getD idx default).respuesta
              if existente != "" && existente != "nan" then (df, false, [])
              else (df, false, [⟨from_number, .validation⟩])
          | none => (df, false, [⟨from_number, .validation⟩])

/-- One inbound message through src/app.py's webhook POST handler.
ack_ok is the outcome of the acknowledgment send: the handler attempts
it only after save_csv, inside its own try/except, and discards the
result, so ack_ok reaches only the delivered field. -/
def process_inbound (df : List Row) (from_number : String) (response_text : Option String)
    (button_id : Option String) (context_id : String) (now : String) (ack_ok : Bool) :
    WebhookEffect :=
  let c := process_core df from_number response_text button_id context_id now
  ⟨c.1, c.2.1, c.2.2, if ack_ok then c.2.2 else []⟩

/-- The parsed body of one webhook POST delivery, as far as the two
handlers inspect it: JSON that does not parse (request.get_json raises),
a JSON null, or a JSON object, with or without an entry field. -/
inductive WebhookBody where
  | malformed
  | nullBody
  | obj (has_entry : Bool)
deriving Repr, DecidableEq

/-- The POST branch of src/app.py's webhook route: a malformed body
raises inside the try and the except returns ok 200; a null or
entry-less body takes the early ok 200; processing of an object, whether
it completes or raises, still answers 200. -/
def app_webhook_post_status (body : WebhookBody) (processing : Except String Unit) : Nat :=
  match body, processing with
  | .malformed, _ => 200
  | .nullBody, _ => 200
  | .obj _, Except.ok _ => 200
  | .obj _, Except.error _ => 200

/-- webhook_post of src/webhook.py: a malformed body makes
request.get_json raise, a null body makes the entry-membership test
raise TypeError; both land in the except branch returning Error 500.  A
JSON object is walked and answered OK 200. -/
def webhook_post (body : WebhookBody) : String × Nat :=
  match body with
  | .malformed => ("Error", 500)
  | .nullBody => ("Error", 500)
  | .obj _ => ("OK", 200)

/-- The JSON summary send_batch_messages answers with: the no-pending
early return carries only whole-store statistics, the completed pass
carries the per-pass counters and the final frame. -/
inductive BatchResponse where
  | noPending (stats : CSVHandler.Stats)
  | completed (sent : Nat) (errors : Nat) (total_processed : Nat) (store : List Row)
deriving Repr, DecidableEq

/-- send_batch_messages of src/app.py: load the frame, take the pending
contacts; when none, answer with get_statistics of the whole frame;
otherwise send to each pending row in order (send_result gives each
attempt's outcome, result_text its message id or error text), update the
row's send status, and answer with the pass counters. -/
def send_batch (has_opt_in : Bool) (df : List Row) (send_result : Nat → Bool)
    (result_text : Nat → String) (now : String) : BatchResponse :=
  let pending := CSVHandler.get_pending_contacts has_opt_in df
  if pending.isEmpty then .noPending (CSVHandler.get_statistics df)
  else
    let final := pending.foldl
      (fun (acc : List Row × Nat × Nat) p =>
        let ok := send_result p.1
        (CSVHandler.update_send_status acc.1 p.1 ok (result_text p.1) now,
         acc.2.1 + (if ok then 1 else 0),
         acc.2.2 + (if ok then 0 else 1)))
      (df, 0, 0)
    .completed final.2.1 final.2.2 pending.length final.1

/-- The sent count a batch response reports under the stats key. -/
def reported_sent : BatchResponse → Nat
  | .noPending s => s.sent
  | .completed s _ _ _ => s

/-- The errors count a batch response reports under the stats key. -/
def reported_errors : BatchResponse → Nat
  | .noPending s => s.errors
  | .completed _ e _ _ => e

/-- The total_processed count a batch response reports, when it reports
one: the no-pending summary has no such key. -/
def reported_total_processed : BatchResponse → Option Nat
  | .noPending _ => none
  | .completed _ _ t _ => some t

/-- One row of the estudiantes table of src/services/db_handler.py.
respuesta, fecha_respuesta and fecha_envio are nullable columns, so they
are Option String here; the rest are TEXT the handler always writes. -/
structure Estudiante where
  telefono_e164 : String
  nombre : String
  bootcamp_id : String
  bootcamp_nombre : String
  modalidad : String
  ingles_inicio : String
  ingles_fin : String
  inicio_formacion : String
  horario : String
  lugar : String
  opt_in : String
  estado_envio : String
  fecha_envio : Option String
  message_id : String
  respuesta : Option String
  fecha_respuesta : Option String
deriving Repr, DecidableEq, Inhabited

/-- The estudiante_data dictionary insert_or_update_estudiante receives,
after its .get defaults are applied. -/
structure EstudianteData where
  telefono_e164 : String
  nombre : String
  bootcamp_id : String
  bootcamp_nombre : String
  modalidad : String
  ingles_inicio : String
  ingles_fin : String
  inicio_formacion : String
  horario : String
  lugar : String
  opt_in : String
  estado_envio : String
  fecha_envio : Option String
  message_id : String
  respuesta : Option String
  fecha_respuesta : Option String
deriving Repr, DecidableEq, Inhabited

namespace DatabaseHandler

/-- The row insert_or_update_estudiante inserts on no conflict. -/
def insertedRow (d : EstudianteData) : Estudiante :=
  ⟨d.telefono_e164, d.nombre, d.bootcamp_id, d.bootcamp_nombre, d.modalidad,
   d.ingles_inicio, d.ingles_fin, d.inicio_formacion, d.horario, d.lugar,
   d.opt_in, d.estado_envio, d.fecha_envio, d.message_id, d.respuesta,
   d.fecha_respuesta⟩

/-- The DO UPDATE SET clause: every listed column takes the excluded
(incoming) value, respuesta and fecha_respuesta included. -/
def upsertedRow (d : EstudianteData) (r : Estudiante) : Estudiante :=
  { r with
    nombre := d.nombre, bootcamp_nombre := d.bootcamp_nombre,
    modalidad := d.modalidad, ingles_inicio := d.ingles_inicio,
    ingles_fin := d.ingles_fin, inicio_formacion := d.inicio_formacion,
    horario := d.horario, lugar := d.lugar, opt_in := d.opt_in,
    estado_envio := d.estado_envio, fecha_envio := d.fecha_envio,
    message_id := d.message_id, respuesta := d.respuesta,
    fecha_respuesta := d.fecha_respuesta }

/-- DatabaseHandler.insert_or_update_estudiante: reject falsy required
fields; otherwise INSERT with ON CONFLICT(telefono_e164, bootcamp_id) DO
UPDATE SET overwriting every non-key column with the incoming value.
The UNIQUE constraint keeps at most one row per key, so the conflict row
is the first (only) key match. -/
def insert_or_update_estudiante (db : List Estudiante) (d : EstudianteData) :
    List Estudiante × Bool × String :=
  if d.telefono_e164 == "" || d.nombre == "" then
    (db, false, "Campo requerido faltante")
  else
    match db.findIdx? (fun r =>
        r.telefono_e164 == d.telefono_e164 && r.bootcamp_id == d.bootcamp_id) with
    | some idx => (modifyAt (upsertedRow d) idx db, true, "Estudiante registrado/actualizado")
    | none => (db ++ [insertedRow d], true, "Estudiante registrado/actualizado")

/-- The WHERE clause of DatabaseHandler.update_respuesta as SQLite
parses it: AND binds tighter than OR, so the clause groups as
(phone-matches AND respuesta IS NULL) OR respuesta = ''. -/
def update_respuesta_hit (telefono_clean : String) (r : Estudiante) : Bool :=
  (stripPhoneChars r.telefono_e164 == telefono_clean && r.respuesta == none)
    || r.respuesta == some ""

/-- DatabaseHandler.update_respuesta: normalise the input phone by
removing plus, space and hyphen (no strip), run the UPDATE over every
row the WHERE clause hits, and report how many rows were affected. -/
def update_respuesta (db : List Estudiante) (telefono respuesta fecha_respuesta : String) :
    List Estudiante × Bool × String :=
  let telefono_clean := stripPhoneChars telefono
  let db1 := db.map (fun r =>
    if update_respuesta_hit telefono_clean r then
      { r with respuesta := some respuesta, fecha_respuesta := some fecha_respuesta }
    else r)
  let affected := (db.filter (update_respuesta_hit telefono_clean)).length
  (db1, decide (0 < affected),
   if 0 < affected then "Respuesta actualizada" else "No se encontró el estudiante o ya tiene respuesta")

end DatabaseHandler

/-!  Concrete fixtures the theorems evaluate the embedding on. -/

/-- A csv row with every cell empty. -/
def baseRow : Row := ⟨"", "", "", "", "", "", "", "", ""⟩

/-- A contact who already gave the terminal answer Sí. -/
def rowAnswered : Row :=
  { baseRow with
    telefono_e164 := "573001112233", nombre := "Ana",
    respuesta := "Sí", fecha_respuesta := "2024-01-01T00:00:00", respuesta_id := "btn_si" }

/-- An opted-in contact who has not answered yet. -/
def rowNoReply : Row :=
  { baseRow with telefono_e164 := "573001112233", nombre := "Ana", opt_in := "TRUE" }

/-- A contact already marked sent (opted in). -/
def rowSentA : Row :=
  { baseRow with
    telefono_e164 := "573001112233", nombre := "Ana",
    opt_in := "TRUE", estado_envio_simple := "sent" }

/-- A second contact already marked sent (opted in). -/
def rowSentC : Row :=
  { baseRow with
    telefono_e164 := "573002223344", nombre := "Cris",
    opt_in := "TRUE", estado_envio_simple := "sent" }

/-- A store where every contact has been sent to. -/
def dfAllSent : List Row := [rowSentA, rowSentC]

/-- An estudiantes row with every text column empty and every nullable
column NULL. -/
def baseEst : Estudiante :=
  ⟨"", "", "", "", "", "", "", "", "", "", "", "", none, "", none, none⟩

/-- A SQLite row that still awaits an answer (respuesta NULL). -/
def estOwn : Estudiante :=
  { baseEst with telefono_e164 := "573001112233", nombre := "Ana", bootcamp_id := "B1" }

/-- A SQLite row of a different phone whose respuesta is the empty
string (not NULL). -/
def estOtherEmpty : Estudiante :=
  { baseEst with
    telefono_e164 := "5810000000", nombre := "Luis", bootcamp_id := "B1",
    respuesta := some "" }

/-- A SQLite row holding the terminal answer Sí. -/
def estTerminal : Estudiante :=
  { baseEst with
    telefono_e164 := "573001112233", nombre := "Ana", bootcamp_id := "B1",
    respuesta := some "Sí", fecha_respuesta := some "2024-01-01T00:00:00" }

/-- A re-import record for the same (phone, bootcamp) key carrying no
answer: respuesta the empty-string default, fecha_respuesta None. -/
def dataReimport : EstudianteData :=
  ⟨"573001112233", "Ana", "B1", "IA", "Virtual", "", "", "", "", "",
   "TRUE", "", none, "", some "", none⟩

end AgentTT

namespace AgentTT

/-!  Theorems. -/

theorem getElem?_modifyAt (f : α → α) (n : Nat) (l : List α) (i : Nat) :
    (modifyAt f n l)[i]? = if i = n then Option.map f l[i]? else l[i]? := by
  induction l generalizing n i with
  | nil => cases n <;> simp [modifyAt]
  | cons a l ih =>
    cases n with
    | zero => cases i <;> simp [modifyAt]
    | succ n =>
      cases i with
      | zero => simp [modifyAt]
      | succ i => simpa [modifyAt] using ih n i

theorem classify_eq_yes_iff (s : String) :
    classify (some s) = .yes ↔ normalize_reply s ∈ valid_yes := by
  by_cases h1 : normalize_reply s ∈ valid_yes <;>
    by_cases h2 : normalize_reply s ∈ valid_no <;>
      simp [classify, h1, h2]

theorem classify_eq_invalid_iff (s : String) :
    classify (some s) = .invalid ↔
      (normalize_reply s ∉ valid_yes ∧ normalize_reply s ∉ valid_no) := by
  by_cases h1 : normalize_reply s ∈ valid_yes <;>
    by_cases h2 : normalize_reply s ∈ valid_no <;>
      simp [classify, h1, h2]

theorem classify_yes_contains_iff (s : String) :
    classify (some s) = .yes ↔ valid_yes.contains (normalize_reply s) = true := by
  unfold classify
  cases hb1 : valid_yes.contains (normalize_reply s) <;>
    cases hb2 : valid_no.contains (normalize_reply s) <;>
      simp_all

theorem classify_invalid_contains_iff (s : String) :
    classify (some s) = .invalid ↔
      (valid_yes.contains (normalize_reply s) = false
        ∧ valid_no.contains (normalize_reply s) = false) := by
  unfold classify
  cases hb1 : valid_yes.contains (normalize_reply s) <;>
    cases hb2 : valid_no.contains (normalize_reply s) <;>
      simp_all

/-- What the webhook handler's inbound block does for a sender phone the
store does not hold: nothing is written or saved, and only the invalid
branch reaches a send (the validation instructions). -/
theorem process_core_unknown (df : List Row) (from_number txt : String)
    (button_id : Option String) (context_id now : String)
    (h : CSVHandler.find_contact_by_phone df from_number = none) :
    process_core df from_number (some txt) button_id context_id now =
      (df, false,
        if txt == "" || from_number == "" then []
        else if valid_yes.contains (normalize_reply txt) || valid_no.contains (normalize_reply txt) then []
        else [⟨from_number, .validation⟩]) := by
  by_cases he : (txt == "" || from_number == "") = true
  · simp [process_core, he]
  · rw [Bool.not_eq_true] at he
    simp only [process_core, he, Bool.false_eq_true, if_false, CSVHandler.update_response, h]
    split <;> rfl

/-- C3 counterexample.  An inbound body that classifies invalid from a
phone absent from the store does trigger an outbound send: the handler
falls through its known-contact check and sends the
validation-instructions text to the out-of-roster sender. -/
theorem unknown_contact_invalid_sends_validation_cex :
    CSVHandler.find_contact_by_phone [rowAnswered] "5739999999999" = none
  ∧ (process_inbound [rowAnswered] "5739999999999" (some "Hola") none "" "T4" true).attempts =
      [⟨"5739999999999", .validation⟩]
  ∧ (process_inbound [rowAnswered] "5739999999999" (some "Hola") none "" "T4" true).attempts ≠ [] := by
  decide

/-- C3 amended.  For a sender phone the store does not hold, the handler
never mutates or saves the store; when the body classifies yes or no it
sends nothing, but when a non-empty body classifies invalid it sends the
validation-instructions text to the unknown sender. -/
theorem unknown_contact_no_mutation (df : List Row) (from_number txt : String)
    (button_id : Option String) (context_id now : String) (ack_ok : Bool)
    (h : CSVHandler.find_contact_by_phone df from_number = none) :
    (process_inbound df from_number (some txt) button_id context_id now ack_ok).store = df
  ∧ (process_inbound df from_number (some txt) button_id context_id now ack_ok).saved = false
  ∧ (classify (some txt) ≠ .invalid →
      (process_inbound df from_number (some txt) button_id context_id now ack_ok).attempts = [])
  ∧ (txt ≠ "" → from_number ≠ "" → classify (some txt) = .invalid →
      (process_inbound df from_number (some txt) button_id context_id now ack_ok).attempts =
        [⟨from_number, .validation⟩]) := by
  have hc := process_core_unknown df from_number txt button_id context_id now h
  refine ⟨?_, ?_, ?_, ?_⟩
  · simp [process_inbound, hc]
  · simp [process_inbound, hc]
  · intro hcl
    simp only [process_inbound, hc]
    by_cases he : (txt == "" || from_number == "") = true
    · simp [he]
    · have hv : (valid_yes.contains (normalize_reply txt)
          || valid_no.contains (normalize_reply txt)) = true := by
        rcases hb1 : valid_yes.contains (normalize_reply txt) with _ | _
        · rcases hb2 : valid_no.contains (normalize_reply txt) with _ | _
          · exact absurd ((classify_invalid_contains_iff txt).mpr ⟨hb1, hb2⟩) hcl
          · simp
        · simp
      rw [Bool.not_eq_true] at he
      simp [he, hv]
      intro hny
      rcases (by simpa using hv :
          normalize_reply txt ∈ valid_yes ∨ normalize_reply txt ∈ valid_no) with hm | hm
      · exact absurd hm hny
      · exact hm
  · intro ht hf hcl
    have he : (txt == "" || from_number == "") = false := by
      simp [ht, hf]
    have hb := (classify_invalid_contains_iff txt).mp hcl
    simp only [process_inbound, hc, he, Bool.false_eq_true, if_false, hb.1, hb.2,
      Bool.or_self]

/-- C3 witness.  The amended statement evaluated at a concrete store and
an unknown sender for both an invalid and a valid body. -/
theorem unknown_contact_no_mutation_witness :
    (process_inbound [rowAnswered] "5739999999999" (some "Hola") none "" "T4" true).store =
      [rowAnswered]
  ∧ (process_inbound [rowAnswered] "5739999999999" (some "Hola") none "" "T4" true).saved = false
  ∧ (classify (some "Hola") ≠ .invalid →
      (process_inbound [rowAnswered] "5739999999999" (some "Hola") none "" "T4" true).attempts = [])
  ∧ ("Hola" ≠ "" → "5739999999999" ≠ "" → classify (some "Hola") = .invalid →
      (process_inbound [rowAnswered] "5739999999999" (some "Hola") none "" "T4" true).attempts =
        [⟨"5739999999999", .validation⟩]) :=
  unknown_contact_no_mutation [rowAnswered] "5739999999999" "Hola" none "" "T4" true (by decide)

/-- C6.  Classifier totality and normalization equivalence: every input,
absent text included, classifies to exactly one of yes, no, invalid and
the embedding is a total function (nothing raises); after strip and
lower, a body equal to a yes token classifies yes, one equal to a no
token classifies no, and every other body classifies invalid; the
concrete normalisation equivalences of the claim hold. -/
theorem classifier_total_and_normalized :
    (∀ t : Option String, classify t = .yes ∨ classify t = .no ∨ classify t = .invalid)
  ∧ (∀ s : String, classify (some s) = .yes ↔ normalize_reply s ∈ valid_yes)
  ∧ (∀ s : String, normalize_reply s ∈ valid_no → classify (some s) = .no)
  ∧ (∀ s : String, normalize_reply s ∉ valid_yes → normalize_reply s ∉ valid_no →
      classify (some s) = .invalid)
  ∧ classify (some "Sí") = .yes ∧ classify (some "si") = .yes
  ∧ classify (some "SÍ") = .yes ∧ classify (some " sí ") = .yes
  ∧ classify (some "") = .invalid ∧ classify none = .invalid := by
  refine ⟨?_, classify_eq_yes_iff, ?_, ?_,
    by decide, by decide, by decide, by decide, by decide, rfl⟩
  · intro t
    match t with
    | none => exact Or.inr (Or.inr rfl)
    | some s =>
      by_cases h1 : normalize_reply s ∈ valid_yes <;>
        by_cases h2 : normalize_reply s ∈ valid_no <;>
          simp [classify, h1, h2]
  · intro s h
    have h1 : normalize_reply s ∉ valid_yes := by
      have h3 : normalize_reply s = "no" ∨ normalize_reply s = "n" := by
        simpa [valid_no] using h
      rcases h3 with h3 | h3 <;> simp [valid_yes, h3]
    simp [classify, h1, h]
  · intro s h1 h2
    simp [classify, h1, h2]

/-- C7 counterexample.  The standalone handler webhook_post of
src/webhook.py answers a JSON-null POST body with Error 500, so the
webhook POST handler does return a non-200 status. -/
theorem webhook_py_post_non_200_cex :
    webhook_post .nullBody = ("Error", 500)
  ∧ (webhook_post WebhookBody.nullBody).2 ≠ 200 := by decide

/-- C7 amended.  src/app.py's webhook POST branch answers 200 for every
body and every processing outcome, raised errors included; the
standalone src/webhook.py handler answers 200 only for a JSON-object
body, and 500 when the body is malformed or null (processing raises). -/
theorem webhook_post_ack_status :
    (∀ (b : WebhookBody) (p : Except String Unit), app_webhook_post_status b p = 200)
  ∧ (∀ e : Bool, webhook_post (.obj e) = ("OK", 200))
  ∧ webhook_post .malformed = ("Error", 500)
  ∧ webhook_post .nullBody = ("Error", 500) := by
  refine ⟨?_, fun e => rfl, rfl, rfl⟩
  intro b p
  cases b <;> cases p <;> rfl

/-- C10.  The acknowledgment send runs after save_csv inside its own
try/except and its outcome is discarded, so the stored frame, the saved
flag and the attempted sends are identical whatever the send outcome;
concretely, a recorded yes whose thank-you send fails keeps respuesta Sí
and its fecha_respuesta exactly as written, with nothing delivered. -/
theorem ack_failure_preserves_recorded_reply :
    (∀ (df : List Row) (from_number : String) (response_text : Option String)
        (button_id : Option String) (context_id now : String) (a b : Bool),
        (process_inbound df from_number response_text button_id context_id now a).store =
          (process_inbound df from_number response_text button_id context_id now b).store
      ∧ (process_inbound df from_number response_text button_id context_id now a).saved =
          (process_inbound df from_number response_text button_id context_id now b).saved
      ∧ (process_inbound df from_number response_text button_id context_id now a).attempts =
          (process_inbound df from_number response_text button_id context_id now b).attempts)
  ∧ (process_inbound [rowNoReply] "573001112233" (some "si") none "" "T2" false).store =
      [{ rowNoReply with respuesta := "Sí", fecha_respuesta := "T2" }]
  ∧ (process_inbound [rowNoReply] "573001112233" (some "si") none "" "T2" false).saved = true
  ∧ (process_inbound [rowNoReply] "573001112233" (some "si") none "" "T2" false).delivered = [] := by
  exact ⟨fun df fn rt bi ci now a b => ⟨rfl, rfl, rfl⟩, by decide, by decide, by decide⟩

/-- C1 evidence.  A contact whose stored respuesta is already the
terminal Sí receives a further valid inbound no: update_response has no
already-answered guard, so the handler overwrites respuesta to No and
fecha_respuesta to the new timestamp, saves, and re-sends the thank-you,
mutating the supposedly terminal reply state. -/
theorem terminal_reply_overwritten_on_valid_event :
    rowAnswered.respuesta = "Sí"
  ∧ (process_inbound [rowAnswered] "573001112233" (some "no") none "" "2024-02-02T00:00:00" true) =
      ⟨[{ rowAnswered with respuesta := "No", fecha_respuesta := "2024-02-02T00:00:00" }],
       true, [⟨"573001112233", .thanks⟩], [⟨"573001112233", .thanks⟩]⟩
  ∧ ({ rowAnswered with respuesta := "No", fecha_respuesta := "2024-02-02T00:00:00" } : Row).respuesta
      ≠ rowAnswered.respuesta := by decide

/-- C5 counterexample.  The webhook handler matches the whole normalised
body against the token lists, so the scenario body is classified
invalid, not yes: the no-reply contact's row is left unchanged, nothing
is saved, and the validation instructions are sent instead of the
thank-you. -/
theorem si_confirmo_classified_invalid_cex :
    classify (some "Sí, confirmo") = .invalid
  ∧ classify (some "Sí, confirmo") ≠ .yes
  ∧ (process_inbound [rowNoReply] "573001112233" (some "Sí, confirmo") none "" "T3" true) =
      ⟨[rowNoReply], false, [⟨"573001112233", .validation⟩], [⟨"573001112233", .validation⟩]⟩ := by
  decide

/-- C5 amended.  Scenario 1 as the code behaves: a body that is exactly
a yes token (Sí) from a stored no-reply contact is classified yes,
recorded as the standardised respuesta Sí with fecha_respuesta = now and
respuesta_id = the replied-to message id when one is provided, saved,
and the thank-you is sent; the multi-word body of the original scenario
is classified invalid and records nothing. -/
theorem scenario_one_exact_token :
    classify (some "Sí") = .yes
  ∧ (process_inbound [rowNoReply] "573001112233" (some "Sí") none "wamid.orig" "2024-02-02T00:00:00" true) =
      ⟨[{ rowNoReply with respuesta := "Sí", fecha_respuesta := "2024-02-02T00:00:00", respuesta_id := "wamid.orig" }],
       true, [⟨"573001112233", .thanks⟩], [⟨"573001112233", .thanks⟩]⟩
  ∧ classify (some "Sí, confirmo") = .invalid
  ∧ (process_inbound [rowNoReply] "573001112233" (some "Sí, confirmo") none "wamid.orig" "2024-02-02T00:00:00" true).saved = false := by
  decide

/-- C2 counterexample.  A stored row holding the terminal answer Sí is
re-upserted under the same (telefono_e164, bootcamp_id) key by a
re-import record carrying the empty-string respuesta and a NULL
fecha_respuesta: the upsert reports success and the stored respuesta and
fecha_respuesta are replaced by the incoming values, not kept. -/
theorem upsert_erases_terminal_reply_cex :
    estTerminal.respuesta = some "Sí"
  ∧ estTerminal.fecha_respuesta = some "2024-01-01T00:00:00"
  ∧ ((DatabaseHandler.insert_or_update_estudiante [estTerminal] dataReimport).1.getD 0 default).respuesta = some ""
  ∧ ((DatabaseHandler.insert_or_update_estudiante [estTerminal] dataReimport).1.getD 0 default).fecha_respuesta = none
  ∧ (DatabaseHandler.insert_or_update_estudiante [estTerminal] dataReimport).2.1 = true := by
  decide

/-- C2 amended.  When insert_or_update_estudiante hits an existing
(telefono_e164, bootcamp_id) key with non-falsy required fields, its DO
UPDATE SET overwrites every non-key column with the incoming record's
values: the stored respuesta and fecha_respuesta become the incoming
ones, so a terminal reply is preserved only if the incoming record
itself carries it. -/
theorem upsert_overwrites_reply_fields (db : List Estudiante) (d : EstudianteData) (idx : Nat)
    (ht : d.telefono_e164 ≠ "") (hn : d.nombre ≠ "")
    (hidx : db.findIdx? (fun r =>
        r.telefono_e164 == d.telefono_e164 && r.bootcamp_id == d.bootcamp_id) = some idx) :
    ((DatabaseHandler.insert_or_update_estudiante db d).1[idx]?).map Estudiante.respuesta =
      (db[idx]?).map (fun _ => d.respuesta)
  ∧ ((DatabaseHandler.insert_or_update_estudiante db d).1[idx]?).map Estudiante.fecha_respuesta =
      (db[idx]?).map (fun _ => d.fecha_respuesta)
  ∧ (DatabaseHandler.insert_or_update_estudiante db d).2.1 = true := by
  have hcond : (d.telefono_e164 == "" || d.nombre == "") = false := by
    simp [ht, hn]
  have hres : (DatabaseHandler.insert_or_update_estudiante db d).1 =
      modifyAt (DatabaseHandler.upsertedRow d) idx db := by
    simp [DatabaseHandler.insert_or_update_estudiante, hcond, hidx]
  refine ⟨?_, ?_, ?_⟩
  · rw [hres, getElem?_modifyAt, if_pos rfl]
    cases db[idx]? <;> simp [DatabaseHandler.upsertedRow]
  · rw [hres, getElem?_modifyAt, if_pos rfl]
    cases db[idx]? <;> simp [DatabaseHandler.upsertedRow]
  · simp [DatabaseHandler.insert_or_update_estudiante, hcond, hidx]

/-- C2 witness.  The amended statement evaluated on the terminal row and
the empty re-import record. -/
theorem upsert_overwrites_reply_fields_witness :
    ((DatabaseHandler.insert_or_update_estudiante [estTerminal] dataReimport).1[0]?).map
        Estudiante.respuesta = ([estTerminal][0]?).map (fun _ => dataReimport.respuesta)
  ∧ ((DatabaseHandler.insert_or_update_estudiante [estTerminal] dataReimport).1[0]?).map
        Estudiante.fecha_respuesta = ([estTerminal][0]?).map (fun _ => dataReimport.fecha_respuesta)
  ∧ (DatabaseHandler.insert_or_update_estudiante [estTerminal] dataReimport).2.1 = true :=
  upsert_overwrites_reply_fields [estTerminal] dataReimport 0 (by decide) (by decide) (by decide)

/-- C4.  The scope of the SQLite reply update: because AND binds tighter
than OR, update_respuesta rewrites exactly the rows whose normalised
phone matches and whose respuesta is NULL, together with every row of
the whole table whose respuesta is the empty string — concretely
including a row of a different phone, as the second conjunct shows. -/
theorem update_respuesta_where_scope :
    (∀ (db : List Estudiante) (telefono respuesta fecha : String) (i : Nat),
        (DatabaseHandler.update_respuesta db telefono respuesta fecha).1[i]? =
          (db[i]?).map (fun r =>
            if (stripPhoneChars r.telefono_e164 = stripPhoneChars telefono ∧ r.respuesta = none)
                ∨ r.respuesta = some "" then
              { r with respuesta := some respuesta, fecha_respuesta := some fecha }
            else r))
  ∧ (DatabaseHandler.update_respuesta [estOwn, estOtherEmpty] "+57 300-111-2233" "Sí" "F").1 =
      [{ estOwn with respuesta := some "Sí", fecha_respuesta := some "F" },
       { estOtherEmpty with respuesta := some "Sí", fecha_respuesta := some "F" }]
  ∧ stripPhoneChars estOtherEmpty.telefono_e164 ≠ stripPhoneChars "+57 300-111-2233"
  ∧ estOtherEmpty.respuesta = some "" := by
  refine ⟨?_, by decide, by decide, by decide⟩
  intro db telefono respuesta fecha i
  have hmap : (DatabaseHandler.update_respuesta db telefono respuesta fecha).1 =
      db.map (fun r =>
        if DatabaseHandler.update_respuesta_hit (stripPhoneChars telefono) r then
          { r with respuesta := some respuesta, fecha_respuesta := some fecha }
        else r) := rfl
  rw [hmap, List.getElem?_map]
  cases db[i]? with
  | none => rfl
  | some r =>
      have hiff : DatabaseHandler.update_respuesta_hit (stripPhoneChars telefono) r = true ↔
          ((stripPhoneChars r.telefono_e164 = stripPhoneChars telefono ∧ r.respuesta = none)
            ∨ r.respuesta = some "") := by
        simp [DatabaseHandler.update_respuesta_hit]
      by_cases hp : (stripPhoneChars r.telefono_e164 = stripPhoneChars telefono
          ∧ r.respuesta = none) ∨ r.respuesta = some ""
      · simp [hiff.mpr hp, hp]
      · have hb : DatabaseHandler.update_respuesta_hit (stripPhoneChars telefono) r = false := by
          rw [Bool.eq_false_iff]
          exact fun hb2 => hp (hiff.mp hb2)
        simp [hb, hp]

/-- C8.  Batch-send eligibility: with the opt-in column present, a pair
(index, row) is pending exactly when the row sits at that index, its
opt-in value is accepted and its normalised estado is not sent; the
pending list is a sublist of the enumerated frame, preserving row order;
and a row just marked sent by a successful update_send_status is absent
from the next pending computation at its index. -/
theorem pending_contacts_eligibility :
    (∀ (df : List Row) (i : Nat) (r : Row),
        (i, r) ∈ CSVHandler.get_pending_contacts true df ↔
          df[i]? = some r ∧ CSVHandler.opt_in_accepted r.opt_in = true
            ∧ CSVHandler.estado_norm r.estado_envio_simple ≠ "sent")
  ∧ (∀ (b : Bool) (df : List Row),
      (CSVHandler.get_pending_contacts b df).Sublist df.enum)
  ∧ (∀ (b : Bool) (df : List Row) (idx : Nat) (result now : String) (r : Row),
      (idx, r) ∉ CSVHandler.get_pending_contacts b
        (CSVHandler.update_send_status df idx true result now)) := by
  refine ⟨?_, fun b df => List.filter_sublist _, ?_⟩
  · intro df i r
    rw [CSVHandler.get_pending_contacts, List.mem_filter, List.mk_mem_enum_iff_getElem?]
    simp [and_assoc]
  · intro b df idx result now r hmem
    rw [CSVHandler.get_pending_contacts, List.mem_filter] at hmem
    have h2 : (CSVHandler.update_send_status df idx true result now)[idx]? = some r :=
      List.mk_mem_enum_iff_getElem?.mp hmem.1
    have h3 : (CSVHandler.update_send_status df idx true result now)[idx]? =
        (df[idx]?).map (fun r0 =>
          { r0 with estado_envio_simple := "sent", message_id_simple := result, fecha_envio_simple := now }) := by
      show (modifyAt _ idx (modifyAt _ idx df))[idx]? = _
      rw [getElem?_modifyAt, if_pos rfl, getElem?_modifyAt, if_pos rfl, Option.map_map]
      rfl
    rw [h3] at h2
    cases hdf : df[idx]? with
    | none => rw [hdf] at h2; simp at h2
    | some r0 =>
        rw [hdf] at h2
        have hr : r = { r0 with estado_envio_simple := "sent", message_id_simple := result, fecha_envio_simple := now } := by
          simpa using h2.symm
        have hpred := hmem.2
        rw [hr] at hpred
        have hsent : CSVHandler.estado_norm "sent" = "sent" := by decide
        simp [hsent] at hpred

/-- C9 counterexample.  Re-running the batch send when every opted-in
contact is already sent takes the no-pending early return, whose summary
is the whole-store statistics: it reports sent = 2 (the historic count),
not sent = 0, and carries no total_processed at all. -/
theorem empty_pass_summary_cex :
    send_batch true dfAllSent (fun _ => true) (fun _ => "") "T" =
      .noPending ⟨2, 2, 0, 0⟩
  ∧ ¬ (reported_sent (send_batch true dfAllSent (fun _ => true) (fun _ => "") "T") = 0
      ∧ reported_errors (send_batch true dfAllSent (fun _ => true) (fun _ => "") "T") = 0
      ∧ reported_total_processed (send_batch true dfAllSent (fun _ => true) (fun _ => "") "T") =
          some 0) := by
  decide

/-- C9 amended.  When the eligible set is empty the endpoint answers the
no-pending summary built from get_statistics over the whole frame (keys
total, sent, errors, pending with the store's historic counts); the
per-pass counters sent, errors and total_processed appear only in the
completed-pass response. -/
theorem empty_pass_returns_store_stats (b : Bool) (df : List Row)
    (send_result : Nat → Bool) (result_text : Nat → String) (now : String)
    (h : CSVHandler.get_pending_contacts b df = []) :
    send_batch b df send_result result_text now =
      .noPending (CSVHandler.get_statistics df) := by
  simp [send_batch, h]

/-- C9 witness.  The amended statement evaluated on the all-sent store. -/
theorem empty_pass_returns_store_stats_witness :
    send_batch true dfAllSent (fun _ => true) (fun _ => "") "T" =
      .noPending (CSVHandler.get_statistics dfAllSent) :=
  empty_pass_returns_store_stats true dfAllSent (fun _ => true) (fun _ => "") "T" (by decide)

end AgentTT
